import Mathlib

/-!
Shallow embedding of the WebAR t-shirt animal experience core
(arController / modelLoader / animationController) and proofs of the
spec's claims about it.

Conventions:
* THREE.Object3D instances are modelled as values with an explicit
  numeric identity (`id`), allocated from a monotone counter carried in
  the loader state; `clone()` allocates a fresh identity.
* Module-level mutable variables become fields of explicit state
  records threaded through the operations.
* Externally observable side effects (HEAD requests, getUserMedia,
  engine calls, disposals) are collected in event traces.
* Real-valued animation arithmetic is modelled over `ℝ`
  (`Math.sin` becomes `Real.sin`, `Math.PI` becomes `Real.pi`).
-/

namespace WebARShirt

/-! ## Model loader (modelLoader.ts) -/

/-- The three supported animal model keys (`AnimalModel` in App.tsx). -/
inductive AnimalModel
  | AlexBird
  | Bear
  | Deer
deriving DecidableEq, Repr

/-- `modelPaths` record: fixed asset path per model key. -/
def modelPaths : AnimalModel → String
  | .AlexBird => "/models/AlexBird-1.glb"
  | .Bear => "/models/Bear-1.glb"
  | .Deer => "/models/Deer-1.glb"

/-- Placeholder mesh color per key, from `createPlaceholderModel`:
AlexBird ↦ 0x3b82f6, Bear ↦ 0x8b4513, Deer ↦ 0x22c55e. -/
def placeholderColor : AnimalModel → Nat
  | .AlexBird => 0x3b82f6
  | .Bear => 0x8b4513
  | .Deer => 0x22c55e

/-- What kind of Object3D a value is: a decoded gltf scene for a key, or
the placeholder group (one colored box mesh) built by
`createPlaceholderModel`. -/
inductive ObjKind
  | gltfScene (src : AnimalModel)
  | placeholderGroup (color : Nat)
deriving DecidableEq, Repr

/-- A THREE.Object3D as far as the claims need it: an identity (object
instances are compared by reference in the source) and its kind. -/
structure Obj3D where
  id : Nat
  kind : ObjKind
deriving DecidableEq, Repr

/-- Module state of modelLoader.ts: the `modelCache` map, whether
`initializeLoaders` has run (`gltfLoader` non-null), and the identity
allocator for freshly constructed objects. -/
structure LoaderState where
  modelCache : AnimalModel → Option Obj3D
  gltfLoaderReady : Bool
  nextId : Nat

/-- Fresh loader module state: empty cache, loaders not yet initialized. -/
def initialLoaderState : LoaderState :=
  { modelCache := fun _ => none, gltfLoaderReady := false, nextId := 0 }

/-- `initializeLoaders`: idempotently sets up the GLTF/DRACO loaders. -/
def initializeLoaders (s : LoaderState) : LoaderState :=
  if s.gltfLoaderReady then s else { s with gltfLoaderReady := true }

/-- `cached.clone()`: a fresh identity with the same content. -/
def cloneObj (s : LoaderState) (o : Obj3D) : Obj3D × LoaderState :=
  (⟨s.nextId, o.kind⟩, { s with nextId := s.nextId + 1 })

/-- Allocation of the decoded `gltf.scene` object on fetch success. -/
def allocGltfScene (s : LoaderState) (k : AnimalModel) : Obj3D × LoaderState :=
  (⟨s.nextId, .gltfScene k⟩, { s with nextId := s.nextId + 1 })

/-- `createPlaceholderModel`: a fresh group holding one colored box mesh,
whose color is the fixed function `placeholderColor` of the key. -/
def createPlaceholderModel (s : LoaderState) (k : AnimalModel) : Obj3D × LoaderState :=
  (⟨s.nextId, .placeholderGroup (placeholderColor k)⟩, { s with nextId := s.nextId + 1 })

/-- Outcome of the asynchronous gltf fetch+decode for a key. -/
inductive FetchOutcome
  | success
  | failure
deriving DecidableEq, Repr

/-- Environment of the loader: whether the network fetch+decode for each
key succeeds, and the fractional progress callbacks (percent values)
the transfer reports before completion. -/
structure LoaderEnv where
  fetch : AnimalModel → FetchOutcome
  transferProgress : AnimalModel → List ℚ

/-- Result of one `loadModel` call: the returned object (the source's
`Promise<THREE.Object3D | null>`), the loader state afterwards, the
sequence of `onProgress` percentages fired, and whether a network fetch
was performed. -/
structure LoadResult where
  result : Option Obj3D
  state : LoaderState
  progressCalls : List ℚ
  didFetch : Bool

/-- `loadModel(modelName, onProgress)` from modelLoader.ts:
initialize loaders; on cache hit report 100 and return a clone of the
cached template; otherwise fetch — on success cache the decoded scene
and return a clone of it, on failure return a fresh uncached
placeholder; either way finish with `onProgress(100)`. -/
def loadModel (env : LoaderEnv) (k : AnimalModel) (s0 : LoaderState) : LoadResult :=
  let s := initializeLoaders s0
  match s.modelCache k with
  | some tmpl =>
      let (c, s1) := cloneObj s tmpl
      { result := some c, state := s1, progressCalls := [100], didFetch := false }
  | none =>
      if s.gltfLoaderReady then
        match env.fetch k with
        | .success =>
            let (tmpl, s1) := allocGltfScene s k
            let s2 := { s1 with
              modelCache := fun j => if j = k then some tmpl else s1.modelCache j }
            let (c, s3) := cloneObj s2 tmpl
            { result := some c, state := s3,
              progressCalls := env.transferProgress k ++ [100], didFetch := true }
        | .failure =>
            let (fb, s1) := createPlaceholderModel s k
            { result := some fb, state := s1,
              progressCalls := env.transferProgress k ++ [100], didFetch := true }
      else
        { result := none, state := s, progressCalls := [], didFetch := false }

/-- `disposeModel` effect trace: the geometry and material dispose calls
for the (collapsed, single-node) subtree of the object. -/
inductive DisposeEv
  | geometry (objId : Nat)
  | material (objId : Nat)
deriving DecidableEq, Repr

/-- `disposeModel(model)` from modelLoader.ts: traverses the object and
disposes geometry and materials. It touches nothing else — in
particular it contains no reference to the animation-state table. -/
def disposeModel (m : Obj3D) : List DisposeEv :=
  [.geometry m.id, .material m.id]

/-! ## Animation engine (animationController.ts) -/

/-- Per-model animation record stored in the `animationState` map. -/
structure AnimState where
  emergenceProgress : ℝ
  idleTime : ℝ
  targetScale : ℝ
  targetY : ℝ

/-- The transform fields of a model the animation engine writes:
uniform scale, position.y, position.z, rotation.y. -/
structure ModelTransform where
  scale : ℝ
  posY : ℝ
  posZ : ℝ
  rotY : ℝ

/-- `easeOutBack(t) = 1 + c3·(t-1)³ + c1·(t-1)²` with c1 = 1.70158 and
c3 = c1 + 1. -/
noncomputable def easeOutBack (t : ℝ) : ℝ :=
  1 + (1.70158 + 1) * (t - 1) ^ 3 + 1.70158 * (t - 1) ^ 2

/-- The `animationState` table, keyed by object identity. -/
def AnimTable : Type := Nat → Option AnimState

/-- The animation record `startEmergenceAnimation` installs:
progress 0, idle time 0, target scale 0.3, target Y 0.15. -/
noncomputable def emergenceStartState : AnimState :=
  { emergenceProgress := 0, idleTime := 0, targetScale := 0.3, targetY := 0.15 }

/-- The initial pose `startEmergenceAnimation` writes: scale 0.01,
position.y = -0.05, position.z = 0 (rotation untouched). -/
noncomputable def emergenceStartPose (m : ModelTransform) : ModelTransform :=
  { m with scale := 0.01, posY := -0.05, posZ := 0 }

/-- `startEmergenceAnimation(model)`: (re)install the animation record
for the model and set its starting pose. -/
noncomputable def startEmergenceAnimation (tbl : AnimTable) (modelId : Nat)
    (m : ModelTransform) : AnimTable × ModelTransform :=
  (fun i => if i = modelId then some emergenceStartState else tbl i,
   emergenceStartPose m)

/-- The body of `updateIdleAnimation` once the state record is found:
emergence phase while progress < 1 (advance by `delta * 0.8`, clamp to 1,
apply eased scale/Y/Z plus the final-20% bounce), else idle phase
(accumulate idle time; sinusoidal breathing, bob, and yaw). -/
noncomputable def animStep (st : AnimState) (m : ModelTransform) (delta : ℝ) :
    AnimState × ModelTransform :=
  if st.emergenceProgress < 1 then
    let p0 := st.emergenceProgress + delta * 0.8
    let p := if p0 > 1 then 1 else p0
    let easedProgress := easeOutBack p
    let scale := 0.01 + (st.targetScale - 0.01) * easedProgress
    let y0 := -0.05 + (st.targetY + 0.05) * easedProgress
    let z := 0.1 * easedProgress
    let y := if p > 0.8 then
        y0 + Real.sin ((p - 0.8) / 0.2 * Real.pi) * 0.02
      else y0
    ({ st with emergenceProgress := p },
     { m with scale := scale, posY := y, posZ := z })
  else
    let t := st.idleTime + delta
    let breathScale := Real.sin (t * 1.5) * 0.01
    let currentScale := st.targetScale + breathScale
    let bob := Real.sin (t * 2) * 0.008
    ({ st with idleTime := t },
     { m with scale := currentScale, posY := st.targetY + bob,
              rotY := Real.sin (t * 0.5) * 0.1 })

/-- `updateIdleAnimation(model, delta)`: look the model up in the table;
no-op when absent, otherwise run `animStep` and store the new record. -/
noncomputable def updateIdleAnimation (tbl : AnimTable) (modelId : Nat)
    (m : ModelTransform) (delta : ℝ) : AnimTable × ModelTransform :=
  match tbl modelId with
  | none => (tbl, m)
  | some st =>
      let r := animStep st m delta
      (fun i => if i = modelId then some r.1 else tbl i, r.2)

/-- Iterated `animStep` over a list of per-frame deltas. -/
noncomputable def animRun (sm : AnimState × ModelTransform) (ds : List ℝ) :
    AnimState × ModelTransform :=
  ds.foldl (fun sm d => animStep sm.1 sm.2 d) sm

/-- The idle-phase transform as a function of accumulated idle time `t`
and the target fields: (scale, position.y, rotation.y). -/
noncomputable def idleTransform (st : AnimState) (t : ℝ) : ℝ × ℝ × ℝ :=
  (st.targetScale + Real.sin (t * 1.5) * 0.01,
   st.targetY + Real.sin (t * 2) * 0.008,
   Real.sin (t * 0.5) * 0.1)

/-! ## AR session controller (arController.ts) -/

/-- Externally observable actions of the controller. -/
inductive ArEvent
  | headRequest (path : String)
  | getUserMedia
  | probeTrackStop
  | engineCreate
  | engineStart
  | engineStop
  | cancelFrame
  | disposeModelCall (objId : Nat)
deriving DecidableEq, Repr

/-- Outcome of a `fetch(path, {method:'HEAD'})`: an ok response, a
non-ok response, or a rejected promise carrying an error message. -/
inductive HeadOutcome
  | ok
  | notOk
  | networkError (msg : String)
deriving DecidableEq, Repr

/-- Outcome of `navigator.mediaDevices.getUserMedia`, split by error
name exactly as the source classifies it. -/
inductive CameraOutcome
  | granted
  | notAllowed
  | notFound
  | notReadable
  | otherError (msg : String)
deriving DecidableEq, Repr

/-- Environment the initialization chain runs against. `webglContext`
covers both failure paths of `checkWebGLSupport` (null context and
thrown exception both yield type 'webgl'). `engineCtor` is the MindAR
constructor outcome; on throw it carries whether the message mentions
'target' plus the message itself. -/
structure ArEnv where
  webglContext : Bool
  head : String → HeadOutcome
  mindARLoaded : Bool
  camera : CameraOutcome
  engineCtor : Except (Bool × String) Unit
  rendererPresent : Bool
  anchorCreated : Bool

/-- The error payload of the controller's boundary results. -/
structure ArError where
  type : String
  message : String
deriving DecidableEq, Repr

/-- The `{success, error?}` result shape of `initializeAR` and its
helper checks. -/
structure InitResult where
  success : Bool
  error : Option ArError
deriving DecidableEq, Repr

/-- Success result `{ success: true }`. -/
def initOk : InitResult := { success := true, error := none }

/-- Failure result `{ success: false, error: { type, message } }`. -/
def initFail (t msg : String) : InitResult :=
  { success := false, error := some ⟨t, msg⟩ }

/-- Path of the tracking target checked by `validateAssets`. -/
def targetPath : String := "/targets/shirt-target.mind"

/-- The model paths `validateAssets` checks, in order. -/
def validationModelPaths : List String :=
  ["/models/AlexBird-1.glb", "/models/Bear-1.glb", "/models/Deer-1.glb"]

/-- The model-file loop of `validateAssets`: HEAD each path in order,
failing fast with a `validation` error naming the first missing path;
a rejected fetch falls to the surrounding catch (also `validation`). -/
def validateModelLoop (env : ArEnv) : List String → InitResult × List ArEvent
  | [] => (initOk, [])
  | p :: rest =>
      match env.head p with
      | .ok =>
          let r := validateModelLoop env rest
          (r.1, .headRequest p :: r.2)
      | .notOk =>
          (initFail "validation"
            ("3D model file is missing (" ++ p ++
             "). Please ensure all model files are properly deployed."),
           [.headRequest p])
      | .networkError msg =>
          (initFail "validation"
            ("Failed to validate AR assets: " ++ msg ++
             ". Please check your internet connection."),
           [.headRequest p])

/-- `validateAssets()`: HEAD the tracking target, then every model
file; any non-ok response or rejected fetch yields a `validation`
error naming the missing resource (or the catch-all network message). -/
def validateAssets (env : ArEnv) : InitResult × List ArEvent :=
  match env.head targetPath with
  | .ok =>
      let r := validateModelLoop env validationModelPaths
      (r.1, .headRequest targetPath :: r.2)
  | .notOk =>
      (initFail "validation"
        ("AR tracking file is missing (" ++ targetPath ++
         "). Please ensure the target file is properly deployed."),
       [.headRequest targetPath])
  | .networkError msg =>
      (initFail "validation"
        ("Failed to validate AR assets: " ++ msg ++
         ". Please check your internet connection."),
       [.headRequest targetPath])

/-- `checkWebGLSupport()`: success iff a WebGL context can be created;
both failure paths return an error of type 'webgl'. -/
def checkWebGLSupport (env : ArEnv) : InitResult :=
  if env.webglContext then initOk
  else
    initFail "webgl"
      "WebGL is not supported on this device. Please try using a modern browser like Chrome, Firefox, or Safari."

/-- `requestCameraPermission()`: issue getUserMedia; on grant stop the
probe tracks immediately and succeed; classify rejections into
permission / not-found / in-use / unknown. -/
def requestCameraPermission (env : ArEnv) : InitResult × List ArEvent :=
  match env.camera with
  | .granted => (initOk, [.getUserMedia, .probeTrackStop])
  | .notAllowed =>
      (initFail "permission"
        "Camera access denied. Please enable camera permissions in your browser settings and refresh the page.",
       [.getUserMedia])
  | .notFound =>
      (initFail "not-found"
        "No camera found on your device. Please ensure your device has a camera.",
       [.getUserMedia])
  | .notReadable =>
      (initFail "in-use"
        "Camera is already in use by another application. Please close other apps using the camera and try again.",
       [.getUserMedia])
  | .otherError msg =>
      (initFail "unknown"
        ("Failed to access camera: " ++ msg ++
         ". Please check your browser settings and try again."),
       [.getUserMedia])

/-- The module-scoped session state of arController.ts. Handles held
behind `Option`; `currentModel` keeps the attached object. -/
structure ArSession where
  mindarThree : Option Unit
  renderer : Option Unit
  scene : Option Unit
  camera : Option Unit
  anchor : Option Unit
  currentModel : Option Obj3D
  animationFrameId : Option Nat
  isTracking : Bool
  cameraStream : Option Unit
  ambientLight : Option Unit
  directionalLight : Option Unit
  shadowPlane : Option Unit
deriving DecidableEq, Repr

/-- The module state before any call: every handle null, not tracking. -/
def initialSession : ArSession :=
  { mindarThree := none, renderer := none, scene := none, camera := none,
    anchor := none, currentModel := none, animationFrameId := none,
    isTracking := false, cameraStream := none, ambientLight := none,
    directionalLight := none, shadowPlane := none }

/-- `initializeAR(container)`: the ordered fail-fast chain — WebGL
check, asset validation, MindAR CDN wait, camera permission, engine
construction, scene setup. Returns the `{success, error?}` result, the
session state afterwards, and the trace of observable actions. -/
def initializeAR (env : ArEnv) (s : ArSession) :
    InitResult × ArSession × List ArEvent :=
  let webglCheck := checkWebGLSupport env
  if webglCheck.success then
    let assetValidation := validateAssets env
    if assetValidation.1.success then
      if env.mindARLoaded then
        let permissionResult := requestCameraPermission env
        if permissionResult.1.success then
          match env.engineCtor with
          | .error e =>
              (initFail "initialization"
                (if e.1 then
                  "Invalid AR target file. The tracking image may be corrupted. Please refresh the page."
                 else
                  "Failed to initialize AR tracking: " ++ e.2 ++ ". Please refresh the page."),
               s,
               assetValidation.2 ++ permissionResult.2 ++ [.engineCreate])
          | .ok _ =>
              let s1 := { s with mindarThree := some (), cameraStream := none }
              let s2 := { s1 with
                renderer := if env.rendererPresent then some () else none,
                scene := some (), camera := some () }
              if env.rendererPresent then
                if env.anchorCreated then
                  (initOk,
                   { s2 with anchor := some (), ambientLight := some (),
                             directionalLight := some (), shadowPlane := some () },
                   assetValidation.2 ++ permissionResult.2 ++ [.engineCreate])
                else
                  (initFail "initialization"
                    "Failed to setup AR scene: Failed to create AR anchor. Please refresh the page.",
                   s2,
                   assetValidation.2 ++ permissionResult.2 ++ [.engineCreate])
              else
                (initFail "initialization"
                  "Failed to setup AR scene: Failed to initialize renderer. Please refresh the page.",
                 s2,
                 assetValidation.2 ++ permissionResult.2 ++ [.engineCreate])
        else
          (permissionResult.1, s, assetValidation.2 ++ permissionResult.2)
      else
        (initFail "library"
          "MindAR library failed to load from CDN. Please check your internet connection.",
         s, assetValidation.2)
    else
      (assetValidation.1, s, assetValidation.2)
  else
    (webglCheck, s, [])

/-- `stopAR()`: cancel the render loop if scheduled, call
`mindarThree.stop()` if the handle is set (the handle itself is not
cleared), dispose and null the current model, and stop and null any
held camera stream. Nothing else is touched. -/
def stopAR (s : ArSession) : ArSession × List ArEvent :=
  let r1 : ArSession × List ArEvent :=
    match s.animationFrameId with
    | some _ => ({ s with animationFrameId := none }, [.cancelFrame])
    | none => (s, [])
  let r2 : ArSession × List ArEvent :=
    match r1.1.mindarThree with
    | some _ => (r1.1, r1.2 ++ [.engineStop])
    | none => r1
  let r3 : ArSession × List ArEvent :=
    match r2.1.currentModel with
    | some m => ({ r2.1 with currentModel := none }, r2.2 ++ [.disposeModelCall m.id])
    | none => r2
  match r3.1.cameraStream with
  | some _ => ({ r3.1 with cameraStream := none }, r3.2 ++ [.probeTrackStop])
  | none => r3

/-- `stopAR` combined with the animation-state table: `stopAR` calls
`disposeModel` on the current model, and neither `stopAR` nor
`disposeModel` contains any `animationState.delete` — the table passes
through the whole teardown unchanged. -/
def stopARWithAnimTable (s : ArSession) (tbl : AnimTable) :
    (ArSession × List ArEvent) × AnimTable :=
  (stopAR s, tbl)

/-- How the `await loadModel(modelName)` call inside `switchModel`
resolves: with a model, with null, or with a rejection. -/
inductive LoadOutcome
  | loaded (m : Obj3D)
  | returnedNull
  | threw
deriving DecidableEq, Repr

/-- `switchModel(modelName)`: no-op without an anchor; otherwise remove
and dispose the current model first, then load the new one — on a null
result or a rejection, return with no model attached (the old model is
not restored); on success attach the model and, if tracking, note the
emergence restart (not modelled further here). `switchModel` never
throws: the load is wrapped in try/catch. -/
def switchModel (outcome : LoadOutcome) (s : ArSession) :
    ArSession × List ArEvent :=
  match s.anchor with
  | none => (s, [])
  | some _ =>
      let r1 : ArSession × List ArEvent :=
        match s.currentModel with
        | some m => ({ s with currentModel := none }, [.disposeModelCall m.id])
        | none => (s, [])
      match outcome with
      | .returnedNull => r1
      | .threw => r1
      | .loaded m => ({ r1.1 with currentModel := some m }, r1.2)

/-! ## Concrete instances used by witnesses and counterexamples -/

/-- Environment whose tracking-target HEAD check returns a non-ok
response (e.g. a 404), everything else healthy. -/
def envTargetMissing : ArEnv :=
  { webglContext := true, head := fun _ => .notOk, mindARLoaded := true,
    camera := .granted, engineCtor := .ok (), rendererPresent := true,
    anchorCreated := true }

/-- Environment on a device without WebGL support. -/
def envNoWebGL : ArEnv :=
  { webglContext := false, head := fun _ => .ok, mindARLoaded := true,
    camera := .granted, engineCtor := .ok (), rendererPresent := true,
    anchorCreated := true }

/-- Fully healthy environment. -/
def envHealthy : ArEnv :=
  { webglContext := true, head := fun _ => .ok, mindARLoaded := true,
    camera := .granted, engineCtor := .ok (), rendererPresent := true,
    anchorCreated := true }

/-- Session state after a successful initialize + start while tracking:
all handles held, a model attached, render loop scheduled. -/
def runningSession : ArSession :=
  { mindarThree := some (), renderer := some (), scene := some (),
    camera := some (), anchor := some (),
    currentModel := some ⟨7, .gltfScene .Bear⟩,
    animationFrameId := some 3, isTracking := true, cameraStream := none,
    ambientLight := some (), directionalLight := some (),
    shadowPlane := some () }

/-- Loader environment where every fetch succeeds and reports one
fractional progress value. -/
def envLoaderOk : LoaderEnv :=
  { fetch := fun _ => .success, transferProgress := fun _ => [50] }

/-- Loader environment where every fetch fails. -/
def envLoaderFail : LoaderEnv :=
  { fetch := fun _ => .failure, transferProgress := fun _ => [] }

/-- A loader state whose cache already holds a Bear template. -/
def cachedLoaderState : LoaderState :=
  { modelCache := fun k => if k = .Bear then some ⟨0, .gltfScene .Bear⟩ else none,
    gltfLoaderReady := true, nextId := 1 }

/-- An animation table holding a record for object identity 7. -/
noncomputable def animTableWithEntry : AnimTable :=
  fun i => if i = 7 then some { emergenceProgress := 1, idleTime := 0,
                                targetScale := 0.3, targetY := 0.15 }
           else none

/-- A concrete model transform used by animation witnesses. -/
noncomputable def transformProbe : ModelTransform :=
  { scale := 0.3, posY := 0.15, posZ := 0.1, rotY := 0 }

/-- A concrete animation record that has completed emergence. -/
noncomputable def idleStartState : AnimState :=
  { emergenceProgress := 1, idleTime := 0, targetScale := 0.3, targetY := 0.15 }

/-- Invariant of an animation state during the two-phase run started by
`startEmergenceAnimation`: progress stays in [0,1] and the targets stay
at their installed values 0.3 / 0.15. -/
noncomputable def StateOK (st : AnimState) : Prop :=
  0 ≤ st.emergenceProgress ∧ st.emergenceProgress ≤ 1 ∧
  st.targetScale = 0.3 ∧ st.targetY = 0.15

/-- The documented transform envelope: scale between the 0.01 start and
the eased/overshot end 0.01 + (0.3 - 0.01) · 1.2 = 0.358; Y between the
-0.05 recessed start and the eased end -0.05 + 0.2 · 1.2 plus the 0.02
bounce, i.e. 0.21. -/
noncomputable def TransformOK (m : ModelTransform) : Prop :=
  0.01 ≤ m.scale ∧ m.scale ≤ 0.358 ∧ -0.05 ≤ m.posY ∧ m.posY ≤ 0.21

/-! ## Theorems -/

/-- C1: if the HEAD check on the tracking target returns non-ok, then
`initializeAR` returns `{success:false}` with a `validation` error
naming the missing resource, the session state is untouched, and the
trace contains exactly the one target HEAD request — in particular no
`getUserMedia` call and no engine construction ever happen. -/
theorem initializeAR_target_missing_short_circuits
    (env : ArEnv) (s : ArSession)
    (hgl : env.webglContext = true)
    (ht : env.head targetPath = .notOk) :
    (initializeAR env s).1 =
      initFail "validation"
        ("AR tracking file is missing (" ++ targetPath ++
         "). Please ensure the target file is properly deployed.") ∧
    (initializeAR env s).2.1 = s ∧
    (initializeAR env s).2.2 = [.headRequest targetPath] ∧
    ArEvent.getUserMedia ∉ (initializeAR env s).2.2 ∧
    ArEvent.engineCreate ∉ (initializeAR env s).2.2 := by
  simp [initializeAR, checkWebGLSupport, validateAssets, hgl, ht, initOk, initFail]

/-- Witness for C1 at a concrete environment with a missing target. -/
theorem initializeAR_target_missing_short_circuits_witness :
    envTargetMissing.webglContext = true ∧
    envTargetMissing.head targetPath = .notOk ∧
    ((initializeAR envTargetMissing initialSession).1 =
      initFail "validation"
        ("AR tracking file is missing (" ++ targetPath ++
         "). Please ensure the target file is properly deployed.") ∧
     (initializeAR envTargetMissing initialSession).2.1 = initialSession ∧
     (initializeAR envTargetMissing initialSession).2.2 = [.headRequest targetPath] ∧
     ArEvent.getUserMedia ∉ (initializeAR envTargetMissing initialSession).2.2 ∧
     ArEvent.engineCreate ∉ (initializeAR envTargetMissing initialSession).2.2) :=
  ⟨rfl, rfl,
   initializeAR_target_missing_short_circuits envTargetMissing initialSession rfl rfl⟩

/-- C2 counterexample: when no WebGL context can be created,
`initializeAR` fails with an error whose type field is the literal
'webgl', not the 'capability' tag the claim asserts. -/
theorem initializeAR_webgl_type_counterexample :
    (initializeAR envNoWebGL initialSession).1 =
      initFail "webgl"
        "WebGL is not supported on this device. Please try using a modern browser like Chrome, Firefox, or Safari." ∧
    ("webgl" : String) ≠ "capability" := by
  refine ⟨rfl, ?_⟩
  decide

/-- C2 (amended): when the graphics-capability check fails,
`initializeAR` returns `{success:false}` with an error whose type field
is 'webgl', leaving the session untouched and issuing no observable
action. -/
theorem initializeAR_webgl_failure (env : ArEnv) (s : ArSession)
    (hgl : env.webglContext = false) :
    (initializeAR env s).1 =
      initFail "webgl"
        "WebGL is not supported on this device. Please try using a modern browser like Chrome, Firefox, or Safari." ∧
    (initializeAR env s).2.1 = s ∧
    (initializeAR env s).2.2 = [] := by
  simp [initializeAR, checkWebGLSupport, hgl, initOk, initFail]

/-- Witness for the amended C2 at a concrete WebGL-less environment. -/
theorem initializeAR_webgl_failure_witness :
    envNoWebGL.webglContext = false ∧
    ((initializeAR envNoWebGL initialSession).1 =
      initFail "webgl"
        "WebGL is not supported on this device. Please try using a modern browser like Chrome, Firefox, or Safari." ∧
     (initializeAR envNoWebGL initialSession).2.1 = initialSession ∧
     (initializeAR envNoWebGL initialSession).2.2 = []) :=
  ⟨rfl, initializeAR_webgl_failure envNoWebGL initialSession rfl⟩

/-- C5 counterexample: after `stopAR` on a running session, the
tracking flag is still true and the engine, renderer and anchor handles
are still held — they are not nulled or reset as the claim states. -/
theorem stopAR_not_full_reset_counterexample :
    (stopAR runningSession).1.isTracking = true ∧
    (stopAR runningSession).1.mindarThree = some () ∧
    (stopAR runningSession).1.renderer = some () ∧
    (stopAR runningSession).1.scene = some () ∧
    (stopAR runningSession).1.camera = some () ∧
    (stopAR runningSession).1.anchor = some () := by
  decide

/-- C5 (amended): `stopAR` nulls the render-loop handle, the
active-model reference and the camera-probe stream, and leaves the
tracking-engine handle, renderer, scene, camera, anchor and the
tracking flag exactly as they were. -/
theorem stopAR_state_effect (s : ArSession) :
    (stopAR s).1.animationFrameId = none ∧
    (stopAR s).1.currentModel = none ∧
    (stopAR s).1.cameraStream = none ∧
    (stopAR s).1.mindarThree = s.mindarThree ∧
    (stopAR s).1.renderer = s.renderer ∧
    (stopAR s).1.scene = s.scene ∧
    (stopAR s).1.camera = s.camera ∧
    (stopAR s).1.anchor = s.anchor ∧
    (stopAR s).1.isTracking = s.isTracking := by
  obtain ⟨mt, r, sc, c, a, cm, afi, it, cs, al, dl, sp⟩ := s
  unfold stopAR
  cases afi <;> cases mt <;> cases cm <;> cases cs <;> simp

/-- C6 counterexample: a second consecutive `stopAR` on a stopped
session is not free of operations — it re-issues the tracking-engine
stop call, because the engine handle was never cleared. -/
theorem stopAR_second_call_effect_counterexample :
    (stopAR (stopAR runningSession).1).2 = [ArEvent.engineStop] ∧
    ([ArEvent.engineStop] : List ArEvent) ≠ [] := by
  decide

/-- C6 (amended): `stopAR` is idempotent on state and raises no error:
a second consecutive invocation leaves all state unchanged and performs
no operation except re-issuing the engine stop call when the engine
handle is set; invoked on a fresh session it performs no operation at
all. -/
theorem stopAR_idempotent (s : ArSession) :
    (stopAR (stopAR s).1).1 = (stopAR s).1 ∧
    (stopAR (stopAR s).1).2 =
      (if s.mindarThree.isSome then [ArEvent.engineStop] else []) ∧
    stopAR initialSession = (initialSession, []) := by
  obtain ⟨mt, r, sc, c, a, cm, afi, it, cs, al, dl, sp⟩ := s
  refine ⟨?_, ?_, rfl⟩ <;>
    cases afi <;> cases mt <;> cases cm <;> cases cs <;> simp [stopAR]

/-- C10: with an anchor present and a model attached, `switchModel`
disposes the old model first; if the subsequent load returns null or
rejects, it still returns normally, with no model attached and nothing
else changed — the previous model is not restored. -/
theorem switchModel_load_failure_leaves_no_model
    (s : ArSession) (m : Obj3D) (outcome : LoadOutcome)
    (ha : s.anchor = some ())
    (hm : s.currentModel = some m)
    (hfail : outcome = .returnedNull ∨ outcome = .threw) :
    (switchModel outcome s).1 = { s with currentModel := none } ∧
    (switchModel outcome s).1.currentModel = none ∧
    (switchModel outcome s).2 = [.disposeModelCall m.id] := by
  rcases hfail with h | h <;> subst h <;> simp [switchModel, ha, hm]

/-- Witness for C10 at a concrete running session whose load fails. -/
theorem switchModel_load_failure_leaves_no_model_witness :
    runningSession.anchor = some () ∧
    runningSession.currentModel = some ⟨7, .gltfScene .Bear⟩ ∧
    (LoadOutcome.returnedNull = LoadOutcome.returnedNull ∨
     LoadOutcome.returnedNull = LoadOutcome.threw) ∧
    ((switchModel .returnedNull runningSession).1 =
       { runningSession with currentModel := none } ∧
     (switchModel .returnedNull runningSession).1.currentModel = none ∧
     (switchModel .returnedNull runningSession).2 = [.disposeModelCall 7]) :=
  ⟨rfl, rfl, Or.inl rfl,
   switchModel_load_failure_leaves_no_model runningSession ⟨7, .gltfScene .Bear⟩
     .returnedNull rfl rfl (Or.inl rfl)⟩

/-- `initializeLoaders` resolved: loaders become ready, nothing else
changes. -/
theorem initializeLoaders_eq (s : LoaderState) :
    initializeLoaders s = ⟨s.modelCache, true, s.nextId⟩ := by
  obtain ⟨c, r, n⟩ := s
  cases r <;> rfl

/-- `loadModel` on a cache hit: no fetch, a single 100% progress call,
and a freshly allocated clone of the cached template. -/
theorem loadModel_hit (env : LoaderEnv) (k : AnimalModel) (s : LoaderState)
    (tmpl : Obj3D) (h : s.modelCache k = some tmpl) :
    loadModel env k s =
      { result := some ⟨s.nextId, tmpl.kind⟩,
        state := ⟨s.modelCache, true, s.nextId + 1⟩,
        progressCalls := [100], didFetch := false } := by
  unfold loadModel
  rw [initializeLoaders_eq]
  simp [h, cloneObj]

/-- `loadModel` on a cache miss with a successful fetch: the decoded
scene is cached under the key and a clone of it is returned. -/
theorem loadModel_miss_success (env : LoaderEnv) (k : AnimalModel)
    (s : LoaderState) (hmiss : s.modelCache k = none)
    (hok : env.fetch k = .success) :
    loadModel env k s =
      { result := some ⟨s.nextId + 1, .gltfScene k⟩,
        state := ⟨fun j => if j = k then some ⟨s.nextId, .gltfScene k⟩
                           else s.modelCache j,
                  true, s.nextId + 2⟩,
        progressCalls := env.transferProgress k ++ [100],
        didFetch := true } := by
  unfold loadModel
  rw [initializeLoaders_eq]
  simp [hmiss, hok, allocGltfScene, cloneObj]

/-- `loadModel` on a cache miss with a failed fetch: a fresh
placeholder is returned and the cache is left untouched. -/
theorem loadModel_miss_failure (env : LoaderEnv) (k : AnimalModel)
    (s : LoaderState) (hmiss : s.modelCache k = none)
    (hfail : env.fetch k = .failure) :
    loadModel env k s =
      { result := some ⟨s.nextId, .placeholderGroup (placeholderColor k)⟩,
        state := ⟨s.modelCache, true, s.nextId + 1⟩,
        progressCalls := env.transferProgress k ++ [100],
        didFetch := true } := by
  unfold loadModel
  rw [initializeLoaders_eq]
  simp [hmiss, hfail, createPlaceholderModel]

/-- C3: a cached key is never fetched again, and in the successful case
two `loadModel` calls for the same key fetch exactly once, the second
call's progress callback fires only with 100, and the template and the
two returned objects are three pairwise-distinct instances. -/
theorem loadModel_fetch_once_and_clones :
    (∀ (env : LoaderEnv) (k : AnimalModel) (s : LoaderState),
       (s.modelCache k).isSome → (loadModel env k s).didFetch = false) ∧
    (∀ (env : LoaderEnv) (k : AnimalModel) (s : LoaderState),
       s.modelCache k = none → env.fetch k = .success →
       (loadModel env k s).didFetch = true ∧
       (loadModel env k (loadModel env k s).state).didFetch = false ∧
       (loadModel env k (loadModel env k s).state).progressCalls = [100] ∧
       ∃ o1 o2 tmpl,
         (loadModel env k s).result = some o1 ∧
         (loadModel env k (loadModel env k s).state).result = some o2 ∧
         (loadModel env k s).state.modelCache k = some tmpl ∧
         o1 ≠ tmpl ∧ o2 ≠ tmpl ∧ o1 ≠ o2) := by
  constructor
  · intro env k s h
    obtain ⟨tmpl, htmpl⟩ := Option.isSome_iff_exists.mp h
    rw [loadModel_hit env k s tmpl htmpl]
  · intro env k s hmiss hok
    have h1 := loadModel_miss_success env k s hmiss hok
    have hcache : (loadModel env k s).state.modelCache k =
        some ⟨s.nextId, .gltfScene k⟩ := by
      rw [h1]; simp
    have h2 := loadModel_hit env k (loadModel env k s).state
      ⟨s.nextId, .gltfScene k⟩ hcache
    have hnext : (loadModel env k s).state.nextId = s.nextId + 2 := by
      rw [h1]
    refine ⟨by rw [h1], by rw [h2], by rw [h2],
      ⟨s.nextId + 1, .gltfScene k⟩, ⟨(loadModel env k s).state.nextId, .gltfScene k⟩,
      ⟨s.nextId, .gltfScene k⟩, by rw [h1], by rw [h2], hcache, ?_, ?_, ?_⟩ <;>
      simp [Obj3D.mk.injEq, hnext]

/-- Witness for C3: a cached Bear state is not re-fetched, and a fresh
Deer double-load fetches once with distinct clones. -/
theorem loadModel_fetch_once_and_clones_witness :
    ((cachedLoaderState.modelCache .Bear).isSome ∧
     (loadModel envLoaderOk .Bear cachedLoaderState).didFetch = false) ∧
    (initialLoaderState.modelCache .Deer = none ∧
     envLoaderOk.fetch .Deer = .success ∧
     ((loadModel envLoaderOk .Deer initialLoaderState).didFetch = true ∧
      (loadModel envLoaderOk .Deer
        (loadModel envLoaderOk .Deer initialLoaderState).state).didFetch = false ∧
      (loadModel envLoaderOk .Deer
        (loadModel envLoaderOk .Deer initialLoaderState).state).progressCalls = [100] ∧
      ∃ o1 o2 tmpl,
        (loadModel envLoaderOk .Deer initialLoaderState).result = some o1 ∧
        (loadModel envLoaderOk .Deer
          (loadModel envLoaderOk .Deer initialLoaderState).state).result = some o2 ∧
        (loadModel envLoaderOk .Deer initialLoaderState).state.modelCache .Deer
          = some tmpl ∧
        o1 ≠ tmpl ∧ o2 ≠ tmpl ∧ o1 ≠ o2)) :=
  ⟨⟨rfl, loadModel_fetch_once_and_clones.1 envLoaderOk .Bear cachedLoaderState rfl⟩,
   rfl, rfl,
   loadModel_fetch_once_and_clones.2 envLoaderOk .Deer initialLoaderState rfl rfl⟩

/-- C4: `loadModel` never returns a null result; on a failed fetch it
returns a fresh placeholder whose color is the fixed function of the
key, ends progress at 100, caches nothing (so a later call retries the
fetch), and repeated failed calls return distinct instances. -/
theorem loadModel_placeholder_fallback :
    (∀ (env : LoaderEnv) (k : AnimalModel) (s : LoaderState),
       ((loadModel env k s).result).isSome) ∧
    (∀ (env : LoaderEnv) (k : AnimalModel) (s : LoaderState),
       s.modelCache k = none → env.fetch k = .failure →
       (∃ o, (loadModel env k s).result = some o ∧
          o.kind = .placeholderGroup (placeholderColor k)) ∧
       (loadModel env k s).progressCalls.getLast? = some 100 ∧
       (loadModel env k s).state.modelCache = s.modelCache ∧
       (loadModel env k (loadModel env k s).state).didFetch = true ∧
       ∃ o o2,
         (loadModel env k s).result = some o ∧
         (loadModel env k (loadModel env k s).state).result = some o2 ∧
         o ≠ o2) := by
  constructor
  · intro env k s
    rcases h : s.modelCache k with _ | tmpl
    · rcases hf : env.fetch k with _ | _
      · rw [loadModel_miss_success env k s h hf]; rfl
      · rw [loadModel_miss_failure env k s h hf]; rfl
    · rw [loadModel_hit env k s tmpl h]; rfl
  · intro env k s hmiss hfail
    have h1 := loadModel_miss_failure env k s hmiss hfail
    have hmiss2 : (loadModel env k s).state.modelCache k = none := by
      rw [h1]; exact hmiss
    have h2 := loadModel_miss_failure env k (loadModel env k s).state hmiss2 hfail
    refine ⟨⟨⟨s.nextId, .placeholderGroup (placeholderColor k)⟩, by rw [h1], rfl⟩,
      by rw [h1]; exact List.getLast?_concat _,
      by rw [h1],
      by rw [h2],
      ⟨s.nextId, .placeholderGroup (placeholderColor k)⟩,
      ⟨(loadModel env k s).state.nextId, .placeholderGroup (placeholderColor k)⟩,
      by rw [h1], by rw [h2], ?_⟩
    have hnext : (loadModel env k s).state.nextId = s.nextId + 1 := by rw [h1]
    simp [Obj3D.mk.injEq, hnext]

/-- Witness for C4 at a concrete failing loader environment. -/
theorem loadModel_placeholder_fallback_witness :
    ((loadModel envLoaderFail .AlexBird initialLoaderState).result).isSome ∧
    (initialLoaderState.modelCache .AlexBird = none ∧
     envLoaderFail.fetch .AlexBird = .failure ∧
     ((∃ o, (loadModel envLoaderFail .AlexBird initialLoaderState).result = some o ∧
         o.kind = .placeholderGroup (placeholderColor .AlexBird)) ∧
      (loadModel envLoaderFail .AlexBird initialLoaderState).progressCalls.getLast?
        = some 100 ∧
      (loadModel envLoaderFail .AlexBird initialLoaderState).state.modelCache
        = initialLoaderState.modelCache ∧
      (loadModel envLoaderFail .AlexBird
        (loadModel envLoaderFail .AlexBird initialLoaderState).state).didFetch = true ∧
      ∃ o o2,
        (loadModel envLoaderFail .AlexBird initialLoaderState).result = some o ∧
        (loadModel envLoaderFail .AlexBird
          (loadModel envLoaderFail .AlexBird initialLoaderState).state).result
          = some o2 ∧
        o ≠ o2)) :=
  ⟨loadModel_placeholder_fallback.1 envLoaderFail .AlexBird initialLoaderState,
   rfl, rfl,
   loadModel_placeholder_fallback.2 envLoaderFail .AlexBird initialLoaderState rfl rfl⟩

/-- C9 (code bug): when `stopAR` disposes the current model, nothing in
`stopAR` or `disposeModel` deletes the model's record from the
animation-state table — the disposed model's entry survives as a
dangling entry, contrary to the claim. -/
theorem disposeModel_leaves_animation_entry
    (s : ArSession) (tbl : AnimTable) (m : Obj3D) (st : AnimState)
    (hm : s.currentModel = some m) (hst : tbl m.id = some st) :
    ArEvent.disposeModelCall m.id ∈ (stopAR s).2 ∧
    (stopARWithAnimTable s tbl).2 m.id = some st := by
  constructor
  · obtain ⟨mt, r, sc, c, a, cm, afi, it, cs, al, dl, sp⟩ := s
    simp only at hm
    subst hm
    cases afi <;> cases mt <;> cases cs <;> simp [stopAR]
  · exact hst

/-- Witness for C9: the running session's Bear model (identity 7) has a
table entry which survives the teardown that disposes the model. -/
theorem disposeModel_leaves_animation_entry_witness :
    runningSession.currentModel = some ⟨7, .gltfScene .Bear⟩ ∧
    animTableWithEntry 7 = some { emergenceProgress := 1, idleTime := 0,
                                  targetScale := 0.3, targetY := 0.15 } ∧
    (ArEvent.disposeModelCall 7 ∈ (stopAR runningSession).2 ∧
     (stopARWithAnimTable runningSession animTableWithEntry).2 7 =
       some { emergenceProgress := 1, idleTime := 0,
              targetScale := 0.3, targetY := 0.15 }) :=
  ⟨rfl, rfl,
   disposeModel_leaves_animation_entry runningSession animTableWithEntry
     ⟨7, .gltfScene .Bear⟩ _ rfl rfl⟩

/-- How one `animStep` changes `emergenceProgress`: advance by
`delta * 0.8` clamped to 1 while below 1; unchanged in the idle phase. -/
theorem animStep_progress_eq (st : AnimState) (m : ModelTransform) (d : ℝ) :
    (animStep st m d).1.emergenceProgress =
      if st.emergenceProgress < 1 then
        (if st.emergenceProgress + d * 0.8 > 1 then 1
         else st.emergenceProgress + d * 0.8)
      else st.emergenceProgress := by
  unfold animStep
  by_cases h : st.emergenceProgress < 1
  · rw [if_pos h, if_pos h]
  · rw [if_neg h, if_neg h]

/-- The idle branch of `animStep`, resolved. -/
theorem animStep_idle_eq (st : AnimState) (m : ModelTransform) (d : ℝ)
    (h : ¬ st.emergenceProgress < 1) :
    animStep st m d =
      ({ st with idleTime := st.idleTime + d },
       { m with
          scale := st.targetScale + Real.sin ((st.idleTime + d) * 1.5) * 0.01,
          posY := st.targetY + Real.sin ((st.idleTime + d) * 2) * 0.008,
          rotY := Real.sin ((st.idleTime + d) * 0.5) * 0.1 }) := by
  unfold animStep
  rw [if_neg h]

/-- `animStep` never changes the target fields of the record. -/
theorem animStep_targets (st : AnimState) (m : ModelTransform) (d : ℝ) :
    (animStep st m d).1.targetScale = st.targetScale ∧
    (animStep st m d).1.targetY = st.targetY := by
  unfold animStep
  by_cases h : st.emergenceProgress < 1
  · rw [if_pos h]; exact ⟨rfl, rfl⟩
  · rw [if_neg h]; exact ⟨rfl, rfl⟩

/-- Unfolding `animRun` over a cons. -/
theorem animRun_cons (sm : AnimState × ModelTransform) (d : ℝ) (ds : List ℝ) :
    animRun sm (d :: ds) = animRun (animStep sm.1 sm.2 d) ds := rfl

/-- The overshoot easing is nonnegative on [0, 1]. -/
theorem easeOutBack_nonneg (p : ℝ) (h0 : 0 ≤ p) (_h1 : p ≤ 1) :
    0 ≤ easeOutBack p := by
  unfold easeOutBack
  nlinarith [mul_nonneg h0 (sq_nonneg (p - 3/2)), mul_nonneg h0 (sq_nonneg (p - 1)),
    sq_nonneg (p - 1), h0]

/-- The overshoot easing stays below 1.2 on [0, 1] (its true maximum is
about 1.1). -/
theorem easeOutBack_le (p : ℝ) (h0 : 0 ≤ p) (h1 : p ≤ 1) :
    easeOutBack p ≤ 1.2 := by
  unfold easeOutBack
  nlinarith [mul_nonneg (sub_nonneg.mpr h1) (sq_nonneg (p - 3/5)),
    sq_nonneg (p - 53/100), h0, sq_nonneg (p - 1)]

/-- Closed form of `emergenceProgress` under iterated nonnegative-delta
steps: it is `min 1 (start + sum · 0.8)`. -/
theorem animRun_progress_min (ds : List ℝ) :
    ∀ sm : AnimState × ModelTransform, (∀ d ∈ ds, 0 ≤ d) →
    0 ≤ sm.1.emergenceProgress → sm.1.emergenceProgress ≤ 1 →
    (animRun sm ds).1.emergenceProgress =
      min 1 (sm.1.emergenceProgress + ds.sum * 0.8) := by
  induction ds with
  | nil =>
    intro sm _ h0 h1
    simp only [animRun, List.foldl_nil, List.sum_nil, zero_mul, add_zero]
    exact (min_eq_right h1).symm
  | cons d ds ih =>
    intro sm hds h0 h1
    have hd : 0 ≤ d := hds d (List.mem_cons_self d ds)
    have hds' : ∀ x ∈ ds, 0 ≤ x := fun x hx => hds x (List.mem_cons_of_mem d hx)
    have hsum : 0 ≤ ds.sum := List.sum_nonneg hds'
    have hd8 : 0 ≤ d * 0.8 := mul_nonneg hd (by norm_num)
    have hs8 : 0 ≤ ds.sum * 0.8 := mul_nonneg hsum (by norm_num)
    rw [animRun_cons, List.sum_cons]
    have hp := animStep_progress_eq sm.1 sm.2 d
    by_cases h : sm.1.emergenceProgress < 1
    · rw [if_pos h] at hp
      by_cases hgt : sm.1.emergenceProgress + d * 0.8 > 1
      · rw [if_pos hgt] at hp
        rw [ih (animStep sm.1 sm.2 d) hds' (by rw [hp]; norm_num) (by rw [hp]), hp]
        rw [min_eq_left (by linarith), min_eq_left (by nlinarith)]
      · rw [if_neg hgt] at hp
        have hle : sm.1.emergenceProgress + d * 0.8 ≤ 1 := not_lt.mp hgt
        rw [ih (animStep sm.1 sm.2 d) hds' (by rw [hp]; linarith) (by rw [hp]; linarith),
          hp]
        congr 1
        ring
    · have heq : sm.1.emergenceProgress = 1 := le_antisymm h1 (not_lt.mp h)
      rw [if_neg h] at hp
      rw [ih (animStep sm.1 sm.2 d) hds' (by rw [hp]; linarith) (by rw [hp]; linarith),
        hp, heq]
      rw [min_eq_left (by linarith), min_eq_left (by nlinarith)]

/-- Prefix sums of a nonnegative list are monotone in the prefix
length. -/
theorem sum_take_succ_mono (ds : List ℝ) (h : ∀ d ∈ ds, 0 ≤ d) (n : ℕ) :
    (ds.take n).sum ≤ (ds.take (n + 1)).sum := by
  induction ds generalizing n with
  | nil => simp
  | cons d t ih =>
    cases n with
    | zero =>
      simpa using h d (List.mem_cons_self d t)
    | succ n =>
      simp only [List.take_succ_cons, List.sum_cons]
      exact add_le_add_left (ih (fun x hx => h x (List.mem_cons_of_mem d hx)) n) d

/-- One `animStep` with a nonnegative delta preserves the state
invariant and keeps the written transform inside the documented
envelope. -/
theorem animStep_invariant (st : AnimState) (m : ModelTransform) (d : ℝ)
    (hst : StateOK st) (hd : 0 ≤ d) :
    StateOK (animStep st m d).1 ∧ TransformOK (animStep st m d).2 := by
  obtain ⟨h0, h1, hts, hty⟩ := hst
  by_cases h : st.emergenceProgress < 1
  · unfold animStep
    rw [if_pos h]
    dsimp only
    set q := if st.emergenceProgress + d * 0.8 > 1 then 1
             else st.emergenceProgress + d * 0.8 with hq
    have hd8 : 0 ≤ d * 0.8 := mul_nonneg hd (by norm_num)
    have hq0 : 0 ≤ q := by
      rw [hq]; split
      · norm_num
      · linarith
    have hq1 : q ≤ 1 := by
      rw [hq]; split
      · norm_num
      · next hgt => linarith [not_lt.mp hgt]
    have he0 := easeOutBack_nonneg q hq0 hq1
    have he2 := easeOutBack_le q hq0 hq1
    unfold StateOK TransformOK
    dsimp only
    rw [hts, hty]
    refine ⟨⟨hq0, hq1, rfl, rfl⟩, by nlinarith, by nlinarith, ?_, ?_⟩
    · split
      · next hb =>
          have harg0 : 0 ≤ (q - 0.8) / 0.2 * Real.pi :=
            mul_nonneg (div_nonneg (by linarith) (by norm_num)) Real.pi_pos.le
          have harg1 : (q - 0.8) / 0.2 * Real.pi ≤ Real.pi := by
            have hh : (q - 0.8) / 0.2 ≤ 1 := by
              rw [div_le_one (by norm_num : (0:ℝ) < 0.2)]; linarith
            calc (q - 0.8) / 0.2 * Real.pi ≤ 1 * Real.pi :=
                  mul_le_mul_of_nonneg_right hh Real.pi_pos.le
              _ = Real.pi := one_mul _
          have hsin0 : 0 ≤ Real.sin ((q - 0.8) / 0.2 * Real.pi) :=
            Real.sin_nonneg_of_nonneg_of_le_pi harg0 harg1
          nlinarith
      · nlinarith
    · split
      · next hb =>
          have hsin1 : Real.sin ((q - 0.8) / 0.2 * Real.pi) ≤ 1 :=
            Real.sin_le_one _
          nlinarith
      · nlinarith
  · rw [animStep_idle_eq st m d h]
    unfold StateOK TransformOK
    dsimp only
    rw [hts, hty]
    refine ⟨⟨h0, h1, rfl, rfl⟩, ?_, ?_, ?_, ?_⟩
    · nlinarith [Real.neg_one_le_sin ((st.idleTime + d) * 1.5)]
    · nlinarith [Real.sin_le_one ((st.idleTime + d) * 1.5)]
    · nlinarith [Real.neg_one_le_sin ((st.idleTime + d) * 2)]
    · nlinarith [Real.sin_le_one ((st.idleTime + d) * 2)]

/-- The invariant carries through any nonnegative-delta run. -/
theorem animRun_invariant (ds : List ℝ) :
    ∀ sm : AnimState × ModelTransform, (∀ d ∈ ds, 0 ≤ d) →
    StateOK sm.1 → TransformOK sm.2 →
    StateOK (animRun sm ds).1 ∧ TransformOK (animRun sm ds).2 := by
  induction ds with
  | nil => intro sm _ h1 h2; exact ⟨h1, h2⟩
  | cons d ds ih =>
    intro sm hds h1 h2
    have hstep := animStep_invariant sm.1 sm.2 d h1 (hds d (List.mem_cons_self d ds))
    rw [animRun_cons]
    exact ih (animStep sm.1 sm.2 d) (fun x hx => hds x (List.mem_cons_of_mem d hx))
      hstep.1 hstep.2

/-- The record installed by `startEmergenceAnimation` satisfies the run
invariant. -/
theorem stateOK_start : StateOK emergenceStartState := by
  unfold StateOK emergenceStartState
  norm_num

/-- The starting pose written by `startEmergenceAnimation` lies in the
documented envelope. -/
theorem transformOK_startPose (m : ModelTransform) :
    TransformOK (emergenceStartPose m) := by
  unfold TransformOK emergenceStartPose
  norm_num

/-- C7: after `startEmergenceAnimation`, any sequence of nonnegative
deltas drives `emergenceProgress` to `min 1 (sum · 0.8)` at every
prefix — monotonically non-decreasing, never above 1, exactly 1 once
the deltas sum to the 1/0.8-second duration; each unclamped tick
advances by `delta · 0.8`; and throughout the run the written scale and
Y stay inside the documented start/end-plus-overshoot-plus-bounce
envelope (`TransformOK`). -/
theorem emergence_progress_and_bounds (tbl : AnimTable) (modelId : ℕ)
    (m : ModelTransform) (ds : List ℝ) (hds : ∀ d ∈ ds, 0 ≤ d) :
    (startEmergenceAnimation tbl modelId m).1 modelId = some emergenceStartState ∧
    (∀ n : ℕ,
      (animRun (emergenceStartState, (startEmergenceAnimation tbl modelId m).2)
          (ds.take n)).1.emergenceProgress = min 1 ((ds.take n).sum * 0.8)) ∧
    (∀ n : ℕ,
      (animRun (emergenceStartState, (startEmergenceAnimation tbl modelId m).2)
          (ds.take n)).1.emergenceProgress ≤
        (animRun (emergenceStartState, (startEmergenceAnimation tbl modelId m).2)
          (ds.take (n + 1))).1.emergenceProgress) ∧
    (1 / 0.8 ≤ ds.sum →
      (animRun (emergenceStartState, (startEmergenceAnimation tbl modelId m).2)
          ds).1.emergenceProgress = 1) ∧
    (∀ (st : AnimState) (m' : ModelTransform) (d : ℝ),
      st.emergenceProgress < 1 → st.emergenceProgress + d * 0.8 ≤ 1 →
      (animStep st m' d).1.emergenceProgress = st.emergenceProgress + d * 0.8) ∧
    (∀ n : ℕ,
      TransformOK (animRun (emergenceStartState,
        (startEmergenceAnimation tbl modelId m).2) (ds.take n)).2) := by
  have hclosed : ∀ n : ℕ,
      (animRun (emergenceStartState, (startEmergenceAnimation tbl modelId m).2)
          (ds.take n)).1.emergenceProgress = min 1 ((ds.take n).sum * 0.8) := by
    intro n
    rw [animRun_progress_min (ds.take n)
        (emergenceStartState, (startEmergenceAnimation tbl modelId m).2)
        (fun d hd => hds d (List.take_subset n ds hd))
        (by norm_num [emergenceStartState]) (by norm_num [emergenceStartState])]
    norm_num [emergenceStartState]
  refine ⟨by simp [startEmergenceAnimation], hclosed, ?_, ?_, ?_, ?_⟩
  · intro n
    rw [hclosed n, hclosed (n + 1)]
    exact min_le_min le_rfl
      (mul_le_mul_of_nonneg_right (sum_take_succ_mono ds hds n) (by norm_num))
  · intro hsum
    have h := hclosed ds.length
    rw [List.take_length] at h
    rw [h]
    exact min_eq_left (by nlinarith)
  · intro st m' d hlt hle
    rw [animStep_progress_eq, if_pos hlt, if_neg (not_lt.mpr hle)]
  · intro n
    exact (animRun_invariant (ds.take n)
      (emergenceStartState, (startEmergenceAnimation tbl modelId m).2)
      (fun d hd => hds d (List.take_subset n ds hd))
      stateOK_start (transformOK_startPose m)).2

/-- Witness for C7 at two concrete one-second ticks, which complete the
1.25-second emergence. -/
theorem emergence_progress_and_bounds_witness :
    (∀ d ∈ ([1, 1] : List ℝ), 0 ≤ d) ∧
    ((startEmergenceAnimation (fun _ => none) 0 transformProbe).1 0 =
        some emergenceStartState ∧
     (∀ n : ℕ,
       (animRun (emergenceStartState,
           (startEmergenceAnimation (fun _ => none) 0 transformProbe).2)
           (([1, 1] : List ℝ).take n)).1.emergenceProgress =
         min 1 ((([1, 1] : List ℝ).take n).sum * 0.8)) ∧
     (∀ n : ℕ,
       (animRun (emergenceStartState,
           (startEmergenceAnimation (fun _ => none) 0 transformProbe).2)
           (([1, 1] : List ℝ).take n)).1.emergenceProgress ≤
         (animRun (emergenceStartState,
           (startEmergenceAnimation (fun _ => none) 0 transformProbe).2)
           (([1, 1] : List ℝ).take (n + 1))).1.emergenceProgress) ∧
     (1 / 0.8 ≤ ([1, 1] : List ℝ).sum →
       (animRun (emergenceStartState,
           (startEmergenceAnimation (fun _ => none) 0 transformProbe).2)
           ([1, 1] : List ℝ)).1.emergenceProgress = 1) ∧
     (∀ (st : AnimState) (m' : ModelTransform) (d : ℝ),
       st.emergenceProgress < 1 → st.emergenceProgress + d * 0.8 ≤ 1 →
       (animStep st m' d).1.emergenceProgress = st.emergenceProgress + d * 0.8) ∧
     (∀ n : ℕ,
       TransformOK (animRun (emergenceStartState,
         (startEmergenceAnimation (fun _ => none) 0 transformProbe).2)
         (([1, 1] : List ℝ).take n)).2)) := by
  have h : ∀ d ∈ ([1, 1] : List ℝ), 0 ≤ d := by
    intro d hd
    fin_cases hd <;> norm_num
  exact ⟨h, emergence_progress_and_bounds (fun _ => none) 0 transformProbe [1, 1] h⟩

/-- A run that starts with `emergenceProgress = 1` stays in the idle
phase: progress stays 1, idle time accumulates the delta sum, the
targets are untouched, and after at least one step the written
transform is the idle sinusoid evaluated at the accumulated time. -/
theorem animRun_idle_char (ds : List ℝ) :
    ∀ sm : AnimState × ModelTransform, sm.1.emergenceProgress = 1 →
    ((animRun sm ds).1.emergenceProgress = 1 ∧
     (animRun sm ds).1.idleTime = sm.1.idleTime + ds.sum ∧
     (animRun sm ds).1.targetScale = sm.1.targetScale ∧
     (animRun sm ds).1.targetY = sm.1.targetY) ∧
    (ds ≠ [] →
      (animRun sm ds).2.scale =
        sm.1.targetScale + Real.sin ((sm.1.idleTime + ds.sum) * 1.5) * 0.01 ∧
      (animRun sm ds).2.posY =
        sm.1.targetY + Real.sin ((sm.1.idleTime + ds.sum) * 2) * 0.008 ∧
      (animRun sm ds).2.rotY = Real.sin ((sm.1.idleTime + ds.sum) * 0.5) * 0.1) := by
  induction ds with
  | nil =>
    intro sm h1
    refine ⟨⟨h1, by simp [animRun], rfl, rfl⟩, fun hne => absurd rfl hne⟩
  | cons d ds ih =>
    intro sm h1
    have hnl : ¬ sm.1.emergenceProgress < 1 := by rw [h1]; exact lt_irrefl 1
    rw [animRun_cons, animStep_idle_eq sm.1 sm.2 d hnl]
    obtain ⟨⟨ha1, ha2, ha3, ha4⟩, hb⟩ :=
      ih ({ sm.1 with idleTime := sm.1.idleTime + d },
          { sm.2 with
             scale := sm.1.targetScale + Real.sin ((sm.1.idleTime + d) * 1.5) * 0.01,
             posY := sm.1.targetY + Real.sin ((sm.1.idleTime + d) * 2) * 0.008,
             rotY := Real.sin ((sm.1.idleTime + d) * 0.5) * 0.1 }) h1
    refine ⟨⟨ha1, ?_, ha3, ha4⟩, fun _ => ?_⟩
    · rw [List.sum_cons, ha2]
      dsimp only
      ring
    · by_cases hds0 : ds = []
      · subst hds0
        refine ⟨?_, ?_, ?_⟩ <;> simp [animRun]
      · obtain ⟨hs, hy, hr⟩ := hb hds0
        refine ⟨?_, ?_, ?_⟩
        · rw [List.sum_cons, ← add_assoc]
          exact hs
        · rw [List.sum_cons, ← add_assoc]
          exact hy
        · rw [List.sum_cons, ← add_assoc]
          exact hr

/-- C8: once `emergenceProgress` is 1, any further nonnegative-delta
run keeps the uniform scale within targetScale ± 0.01, Y within
targetY ± 0.008 and yaw within ± 0.1, while idle time accumulates and
progress stays 1; the idle motion is periodic with period 4π. -/
theorem idle_phase_stays_bounded (st : AnimState) (m : ModelTransform)
    (ds : List ℝ) (h1 : st.emergenceProgress = 1) (hne : ds ≠ [])
    (_hds : ∀ d ∈ ds, 0 ≤ d) :
    (animRun (st, m) ds).1.emergenceProgress = 1 ∧
    (animRun (st, m) ds).1.idleTime = st.idleTime + ds.sum ∧
    |(animRun (st, m) ds).2.scale - st.targetScale| ≤ 0.01 ∧
    |(animRun (st, m) ds).2.posY - st.targetY| ≤ 0.008 ∧
    |(animRun (st, m) ds).2.rotY| ≤ 0.1 ∧
    (∀ t : ℝ, idleTransform st (t + 4 * Real.pi) = idleTransform st t) := by
  obtain ⟨⟨ha1, ha2, _, _⟩, hb⟩ := animRun_idle_char ds (st, m) h1
  obtain ⟨hs, hy, hr⟩ := hb hne
  dsimp only at ha2 hs hy hr
  have habs : ∀ x : ℝ, |Real.sin x| ≤ 1 := fun x =>
    abs_le.mpr ⟨Real.neg_one_le_sin x, Real.sin_le_one x⟩
  refine ⟨ha1, ha2, ?_, ?_, ?_, ?_⟩
  · rw [hs, show st.targetScale + Real.sin ((st.idleTime + ds.sum) * 1.5) * 0.01 -
        st.targetScale = Real.sin ((st.idleTime + ds.sum) * 1.5) * 0.01 from by ring,
      abs_mul]
    calc |Real.sin ((st.idleTime + ds.sum) * 1.5)| * |(0.01 : ℝ)|
        ≤ 1 * |(0.01 : ℝ)| := mul_le_mul_of_nonneg_right (habs _) (abs_nonneg _)
      _ = 0.01 := by norm_num
  · rw [hy, show st.targetY + Real.sin ((st.idleTime + ds.sum) * 2) * 0.008 -
        st.targetY = Real.sin ((st.idleTime + ds.sum) * 2) * 0.008 from by ring,
      abs_mul]
    calc |Real.sin ((st.idleTime + ds.sum) * 2)| * |(0.008 : ℝ)|
        ≤ 1 * |(0.008 : ℝ)| := mul_le_mul_of_nonneg_right (habs _) (abs_nonneg _)
      _ = 0.008 := by norm_num
  · rw [hr, abs_mul]
    calc |Real.sin ((st.idleTime + ds.sum) * 0.5)| * |(0.1 : ℝ)|
        ≤ 1 * |(0.1 : ℝ)| := mul_le_mul_of_nonneg_right (habs _) (abs_nonneg _)
      _ = 0.1 := by norm_num
  · intro t
    unfold idleTransform
    have e1 : (t + 4 * Real.pi) * 1.5 = t * 1.5 + (3 : ℤ) * (2 * Real.pi) := by
      push_cast; ring
    have e2 : (t + 4 * Real.pi) * 2 = t * 2 + (4 : ℤ) * (2 * Real.pi) := by
      push_cast; ring
    have e3 : (t + 4 * Real.pi) * 0.5 = t * 0.5 + (1 : ℤ) * (2 * Real.pi) := by
      push_cast; ring
    rw [e1, e2, e3, Real.sin_add_int_mul_two_pi, Real.sin_add_int_mul_two_pi,
      Real.sin_add_int_mul_two_pi]

/-- Witness for C8 at a concrete completed-emergence state and one
one-second idle tick. -/
theorem idle_phase_stays_bounded_witness :
    idleStartState.emergenceProgress = 1 ∧
    ([1] : List ℝ) ≠ [] ∧
    (∀ d ∈ ([1] : List ℝ), 0 ≤ d) ∧
    ((animRun (idleStartState, transformProbe) [1]).1.emergenceProgress = 1 ∧
     (animRun (idleStartState, transformProbe) [1]).1.idleTime =
       idleStartState.idleTime + ([1] : List ℝ).sum ∧
     |(animRun (idleStartState, transformProbe) [1]).2.scale -
        idleStartState.targetScale| ≤ 0.01 ∧
     |(animRun (idleStartState, transformProbe) [1]).2.posY -
        idleStartState.targetY| ≤ 0.008 ∧
     |(animRun (idleStartState, transformProbe) [1]).2.rotY| ≤ 0.1 ∧
     (∀ t : ℝ, idleTransform idleStartState (t + 4 * Real.pi) =
        idleTransform idleStartState t)) := by
  have h1 : idleStartState.emergenceProgress = 1 := rfl
  have hne : ([1] : List ℝ) ≠ [] := by simp
  have hds : ∀ d ∈ ([1] : List ℝ), 0 ≤ d := by
    intro d hd
    rw [List.mem_singleton] at hd
    subst hd
    norm_num
  exact ⟨h1, hne, hds,
    idle_phase_stays_bounded idleStartState transformProbe [1] h1 hne hds⟩

end WebARShirt
